import Mathlib

/-!
Verification of the o2o-mcp-server request dispatcher, route cache and
query operations.

The development is a shallow embedding of `src/index.ts`.  External
collaborators (the filesystem glob facility, `fs` reads, the external
`php artisan` processes and the wall clock) are modelled as oracle fields
of a `World` record, exactly as the specification treats them (opaque
capabilities).  Throwing JavaScript code is modelled with
`Except String`; the thrown value's string rendering is the carried
message.  The one floating-point expression of the core (the coverage
percentage) is modelled as exact binary64 arithmetic: `fl64Pair` is
IEEE-754 round-to-nearest-ties-to-even on the normal range, so the
division and the multiplication of `Math.round((K / N) * 100)` round
exactly as the doubles of the program do.  JSON serialisation at the
transport boundary is abstracted: a successful response carries the
structured result (`ResponseBody.payload`), an error response carries the
diagnostic text (`ResponseBody.message`), mirroring the
`content: [{type: "text", text: ...}]` envelope.
-/

/-! ## String and list helpers (JavaScript primitive semantics) -/

/-- Substring test: JavaScript `s.includes(pat)`. -/
def sIncludes (s pat : String) : Bool :=
  s.toList.tails.any fun t => pat.toList.isPrefixOf t

/-- Drop through the first occurrence of `pat`, returning the suffix that
follows it, or `none` when `pat` does not occur. -/
def dropAfterFirst (pat : List Char) : List Char → Option (List Char)
  | [] => if pat.isEmpty then some [] else none
  | c :: cs =>
    if pat.isPrefixOf (c :: cs) then some ((c :: cs).drop pat.length)
    else dropAfterFirst pat cs

/-- JavaScript `s.replace(pat, "")` for a plain-string `pat`: removes the
first occurrence only. -/
def replaceFirstAux (pat : List Char) : List Char → List Char
  | [] => []
  | c :: cs =>
    if pat.isPrefixOf (c :: cs) then (c :: cs).drop pat.length
    else c :: replaceFirstAux pat cs

/-- JavaScript `s.replace(pat, "")` on `String`. -/
def replaceFirst (s pat : String) : String :=
  String.mk (replaceFirstAux pat.toList s.toList)

/-- Count the non-overlapping occurrences of `pat`, scanning left to
right, exactly as a global regex over a literal pattern advances its
`lastIndex` past each match.  The fuel is the input length; every step
consumes at least one character, so the bound is never reached. -/
def countOccsAux (pat : List Char) : Nat → List Char → Nat
  | 0, _ => 0
  | _ + 1, [] => 0
  | fuel + 1, c :: cs =>
    if pat.isPrefixOf (c :: cs) then
      1 + countOccsAux pat fuel (cs.drop (pat.length - 1))
    else countOccsAux pat fuel cs

def countOccs (pat s : List Char) : Nat := countOccsAux pat s.length s

/-- ASCII lowering: models `String.prototype.toLowerCase` on the ASCII
identifiers and markup this system scans. -/
def lower (s : String) : String := String.mk (s.toList.map Char.toLower)

/-- Split a character list at every occurrence of `sep` (the pieces, in
order): JavaScript `s.split(sep)` for a one-character separator. -/
def splitOnChar (sep : Char) (cur : List Char) : List Char → List (List Char)
  | [] => [cur]
  | c :: cs =>
    if c = sep then cur :: splitOnChar sep [] cs
    else splitOnChar sep (cur ++ [c]) cs

/-- The segment after the last `/`: JavaScript `path.basename`. -/
def lastSegment (cur : List Char) : List Char → List Char
  | [] => cur
  | c :: cs => if c = '/' then lastSegment [] cs else lastSegment (cur ++ [c]) cs

/-- JavaScript `s.startsWith(pat)`. -/
def jsStartsWith (s pat : String) : Bool := pat.toList.isPrefixOf s.toList

/-- JavaScript `s.endsWith(pat)`. -/
def jsEndsWith (s pat : String) : Bool := pat.toList.isSuffixOf s.toList

/-- `undefined` interpolated into a JavaScript template string. -/
def jsShow (o : Option String) : String := o.getD "undefined"

/-- JavaScript `x || d` on a nullable string: the empty string is falsy. -/
def jsOrDefault (o : Option String) (d : String) : String :=
  match o with
  | some s => if s = "" then d else s
  | none => d

/-- JavaScript truthiness of a nullable string, keeping the value:
used for ternaries `x ? f(x) : g` and for `x || null`. -/
def truthyOpt (o : Option String) : Option String :=
  match o with
  | some s => if s = "" then none else some s
  | none => none

/-- First-occurrence deduplication: `[...new Set(xs)]` keeps insertion
order. -/
def dedupFirstAux (seen : List String) : List String → List String
  | [] => []
  | x :: xs =>
    if seen.contains x then dedupFirstAux seen xs
    else x :: dedupFirstAux (x :: seen) xs

def dedupFirst (xs : List String) : List String := dedupFirstAux [] xs

/-- Index of the last `.` in a list of characters, if any. -/
def lastDotIdx : List Char → Option Nat
  | [] => none
  | c :: cs =>
    match lastDotIdx cs with
    | some i => some (i + 1)
    | none => if c = '.' then some 0 else none

/-- `path.basename(p, path.extname(p))`: the last path segment with its
extension removed; a leading dot with no later dot is not an extension. -/
def extractClassName (p : String) : String :=
  let b := lastSegment [] p.toList
  match lastDotIdx b with
  | some i => if i = 0 then String.mk b else String.mk (b.take i)
  | none => String.mk b

/-- ASCII whitespace, modelling the regex class `\s` on the source files
this system scans. -/
def isWs (c : Char) : Bool :=
  c = ' ' || c = '\t' || c = '\n' || c = '\r' || c = '\x0b' || c = '\x0c'

/-- Word characters: the regex class `\w`. -/
def isWordChar (c : Char) : Bool := c.isAlphanum || c = '_'

/-- Strip a literal pattern from the front, or fail. -/
def stripPre (pat s : List Char) : Option (List Char) :=
  if pat.isPrefixOf s then some (s.drop pat.length) else none

deriving instance DecidableEq for Except

/-! ## Data model -/

/-- One route record as emitted by the external route-listing process
(`php artisan route:list --json`), per the collaborator contract. -/
structure Route where
  name : Option String
  method : String
  uri : String
  action : String
  middleware : Option (List String)
deriving Repr, DecidableEq

/-- The process-wide route cache singleton: `routeCache` / `routeCacheTime`. -/
structure CacheState where
  cache : Option (List Route)
  time : Nat
deriving Repr, DecidableEq

/-- `ROUTE_CACHE_TTL = 5 * 60 * 1000`. -/
def ROUTE_CACHE_TTL : Nat := 5 * 60 * 1000

/-- `VALID_DOMAINS`. -/
def VALID_DOMAINS : List String := ["Core", "Customer", "Dealer", "Employer"]

/-- One `DESCRIBE` row as parsed from the tinker output. -/
structure DescribeRow where
  field : String
  colType : String
  nullFlag : String
  key : String
  defaultVal : Option String
  extra : String
deriving Repr, DecidableEq

/-- The external collaborators and configuration, modelled as oracles:
glob (pattern, cwd, ignore list, absolute flag), file reads (fallible),
the wall clock, the route-listing process combined with JSON parsing
(both failure points sit in the same `try`), the schema `DESCRIBE`
process, the phpstan runner (its error carries
`error.stdout || error.message || String(error)`), and `fs.statSync`
modification times. `base` is `O2O_BASE_PATH`. -/
structure World where
  base : String
  now : Nat
  existsSync : String → Bool
  readFile : String → Except String String
  glob : String → String → List String → Bool → List String
  routeListing : Except String (List Route)
  describe : String → Except String (List DescribeRow)
  phpstan : String → Except String String
  mtimeIso : String → String

/-- `path.join(w.base, rest...)` for the joins this code performs. -/
def basePath (w : World) (rest : String) : String := w.base ++ "/" ++ rest

/-- `relativePath`: `absolutePath.replace(O2O_BASE_PATH + "/", "")`. -/
def relativePath (w : World) (p : String) : String :=
  replaceFirst p (w.base ++ "/")

/-- `countLines`: line count of a file, `0` when the read fails
(the source catches the read error). -/
def countLines (w : World) (p : String) : Nat :=
  match w.readFile p with
  | Except.error _ => 0
  | Except.ok c => c.toList.count '\n' + 1

/-- `extractDomain`: first match of the regex
`App\(Core|Customer|Dealer|Employer)\`, scanning positions left to right
and the four alternatives in declaration order. -/
def matchDomainAt (s : List Char) : Option String :=
  VALID_DOMAINS.find? fun d => ("App\\" ++ d ++ "\\").toList.isPrefixOf s

def extractDomainAux : List Char → Option String
  | [] => none
  | c :: cs =>
    match matchDomainAt (c :: cs) with
    | some d => some d
    | none => extractDomainAux cs

def extractDomain (s : String) : Option String := extractDomainAux s.toList

/-! ## RouteCache: `getRoutes` -/

/-- `getRoutes`, with the module-level mutable pair threaded explicitly
and the external call passed as the `fetch` oracle.  The third component
counts external invocations performed by this call (0 or 1): the cache
is served if and only if it is non-null and fresh; a failed refresh
leaves the stored pair untouched and rethrows with the cause appended. -/
def getRoutes (st : CacheState) (now : Nat) (fetch : Except String (List Route)) :
    Except String (List Route) × CacheState × Nat :=
  let refresh : Except String (List Route) × CacheState × Nat :=
    match fetch with
    | Except.ok tbl => (Except.ok tbl, { cache := some tbl, time := now }, 1)
    | Except.error e => (Except.error ("Failed to get routes: " ++ e), st, 1)
  match st.cache with
  | some tbl => if now - st.time < ROUTE_CACHE_TTL then (Except.ok tbl, st, 0) else refresh
  | none => refresh

lemma getRoutes_hit (st : CacheState) (now : Nat) (f : Except String (List Route))
    (tbl : List Route) (hc : st.cache = some tbl)
    (ht : now - st.time < ROUTE_CACHE_TTL) :
    getRoutes st now f = (Except.ok tbl, st, 0) := by
  unfold getRoutes
  rw [hc]
  simp [ht]

lemma getRoutes_refresh_ok (st : CacheState) (now : Nat)
    (tbl : List Route)
    (h : st.cache = none ∨ ROUTE_CACHE_TTL ≤ now - st.time) :
    getRoutes st now (Except.ok tbl) = (Except.ok tbl, ⟨some tbl, now⟩, 1) := by
  unfold getRoutes
  rcases h with h | h
  · rw [h]
  · cases hc : st.cache with
    | none => rfl
    | some t => simp [Nat.not_lt.mpr h]

lemma getRoutes_refresh_error (st : CacheState) (now : Nat) (e : String)
    (h : st.cache = none ∨ ROUTE_CACHE_TTL ≤ now - st.time) :
    getRoutes st now (Except.error e) =
      (Except.error ("Failed to get routes: " ++ e), st, 1) := by
  unfold getRoutes
  rcases h with h | h
  · rw [h]
  · cases hc : st.cache with
    | none => rfl
    | some t => simp [Nat.not_lt.mpr h]

/-- A route table for concrete instantiations. -/
def sampleRoute : Route :=
  { name := some "fleet.orders.index"
    method := "GET"
    uri := "/async/fleet/orders"
    action := "App\\Employer\\Controllers\\OrderController@index"
    middleware := some ["auth"] }

/-- C2: for two successive calls to `getRoutes`, if the first call stored
a listing and the second occurs less than the 300000 ms TTL after the
stored timestamp, the second call performs no external invocation and
returns the stored listing unchanged; if the elapsed time is at least the
TTL or no listing is stored, the second call performs exactly one
external invocation, and (when that invocation succeeds) replaces both
the listing and the timestamp before returning the new listing. -/
theorem route_cache_freshness (st0 : CacheState) (t1 t2 : Nat)
    (f1 f2 : Except String (List Route)) :
    (∀ tbl, ((getRoutes st0 t1 f1).2.1).cache = some tbl →
        t2 - ((getRoutes st0 t1 f1).2.1).time < ROUTE_CACHE_TTL →
        getRoutes ((getRoutes st0 t1 f1).2.1) t2 f2 =
          (Except.ok tbl, (getRoutes st0 t1 f1).2.1, 0)) ∧
    ((((getRoutes st0 t1 f1).2.1).cache = none ∨
        ROUTE_CACHE_TTL ≤ t2 - ((getRoutes st0 t1 f1).2.1).time) →
      ((getRoutes ((getRoutes st0 t1 f1).2.1) t2 f2).2.2 = 1 ∧
        ∀ tbl2, f2 = Except.ok tbl2 →
          getRoutes ((getRoutes st0 t1 f1).2.1) t2 f2 =
            (Except.ok tbl2, ⟨some tbl2, t2⟩, 1))) := by
  constructor
  · intro tbl hc ht
    exact getRoutes_hit _ _ _ _ hc ht
  · intro h
    constructor
    · cases f2 with
      | ok tbl2 => rw [getRoutes_refresh_ok _ _ _ h]
      | error e => rw [getRoutes_refresh_error _ _ _ h]
    · intro tbl2 hf
      subst hf
      exact getRoutes_refresh_ok _ _ _ h

theorem route_cache_freshness_witness :
    getRoutes ((getRoutes ⟨none, 0⟩ 0 (Except.ok [sampleRoute])).2.1) 1000
        (Except.error "down") =
      (Except.ok [sampleRoute], (getRoutes ⟨none, 0⟩ 0 (Except.ok [sampleRoute])).2.1, 0) ∧
    getRoutes ((getRoutes ⟨none, 0⟩ 0 (Except.ok [sampleRoute])).2.1) 600000
        (Except.ok []) =
      (Except.ok [], ⟨some [], 600000⟩, 1) :=
  ⟨(route_cache_freshness ⟨none, 0⟩ 0 1000 (Except.ok [sampleRoute])
        (Except.error "down")).1 [sampleRoute] (by decide) (by decide),
   ((route_cache_freshness ⟨none, 0⟩ 0 600000 (Except.ok [sampleRoute])
        (Except.ok [])).2 (by decide)).2 [] rfl⟩

/-- C3: whenever a refresh attempt inside `getRoutes` fails (the
external-invocation oracle, covering process failure, timeout and
malformed JSON, returns an error `e`), the call fails with an error that
includes the underlying cause, and the cached route table and its
timestamp are returned exactly as they were: the stale cache is neither
cleared nor replaced. -/
theorem route_cache_failure_isolation (st : CacheState) (t : Nat) (e : String)
    (h : st.cache = none ∨ ROUTE_CACHE_TTL ≤ t - st.time) :
    getRoutes st t (Except.error e) =
      (Except.error ("Failed to get routes: " ++ e), st, 1) :=
  getRoutes_refresh_error st t e h

theorem route_cache_failure_isolation_witness :
    getRoutes ⟨some [sampleRoute], 0⟩ 300000 (Except.error "ECONNREFUSED") =
      (Except.error ("Failed to get routes: " ++ "ECONNREFUSED"),
        ⟨some [sampleRoute], 0⟩, 1) :=
  route_cache_failure_isolation ⟨some [sampleRoute], 0⟩ 300000 "ECONNREFUSED"
    (Or.inr (by decide))

/-! ## QueryEngine: existing tools -/

/-- The error message of the domain-validation usage error. -/
def invalidDomainMsg (d : String) : String :=
  "Invalid domain \x27" ++ d ++ "\x27. Valid domains: " ++
    String.intercalate ", " VALID_DOMAINS

/-- The Node `path.join` TypeError raised when a required string argument
arrived as `undefined`. -/
def nodePathTypeError : String :=
  "The \"path\" argument must be of type string. Received undefined"

/-- The Node TypeError raised by `undefined.toLowerCase()`. -/
def undefinedToLowerCaseError : String :=
  "Cannot read properties of undefined (reading \x27toLowerCase\x27)"

/-- The result of `query_domain_structure`.  `files` models the
serialized JSON object bucket by bucket, in declaration order: a JSON
object is an ordered sequence of (key, value) pairs, which is exactly
what the caller observes. -/
structure StructureResult where
  domain : String
  path : String
  total_files : Nat
  files : List (String × List String)
deriving Repr, DecidableEq

/-- The nine category buckets of `queryDomainStructure`: each one an
independent substring filter over the full glob result. -/
def structureBuckets (files : List String) : List (String × List String) :=
  [("controllers", files.filter fun f => sIncludes f "Controller"),
   ("repositories", files.filter fun f =>
      sIncludes f "Repository" && !(sIncludes f "Interface")),
   ("repository_interfaces", files.filter fun f =>
      sIncludes f "Repository" && sIncludes f "Interface"),
   ("transformers", files.filter fun f => sIncludes f "Transformer"),
   ("requests", files.filter fun f => sIncludes f "Request"),
   ("models", files.filter fun f => sIncludes f "/Models/"),
   ("entities", files.filter fun f => sIncludes f "/Entities/"),
   ("services", files.filter fun f => sIncludes f "Service"),
   ("exceptions", files.filter fun f => sIncludes f "Exception")]

/-- `queryDomainStructure`. -/
def queryDomainStructure (w : World) (domain? : Option String) :
    Except String StructureResult :=
  let dStr := jsShow domain?
  if (match domain? with
      | some d => VALID_DOMAINS.contains d
      | none => false) then
    let domainPath := w.base ++ "/app/" ++ dStr
    if w.existsSync domainPath then
      let files := w.glob (domainPath ++ "/**/*.php") ""
        ["**/vendor/**", "**/node_modules/**"] false
      Except.ok
        { domain := dStr
          path := domainPath
          total_files := files.length
          files := (structureBuckets files).map fun b =>
            (b.1, b.2.map (relativePath w)) }
    else Except.error ("Domain path not found: " ++ domainPath)
  else Except.error (invalidDomainMsg dStr)

/-- The bucket record of `find_related_files` (named fields: this result
is re-read structurally by `findServiceChain`). -/
structure RelatedFiles where
  controllers : List String
  repositories : List String
  repository_interfaces : List String
  transformers : List String
  models : List String
  entities : List String
  requests : List String
  services : List String
  tests : List String
deriving Repr, DecidableEq

structure RelatedResult where
  entity_name : String
  search_domain : String
  total_files : Nat
  files : RelatedFiles
deriving Repr, DecidableEq

/-- `findRelatedFiles`. -/
def findRelatedFiles (w : World) (entity? domain? : Option String) :
    Except String RelatedResult :=
  let entity := jsShow entity?
  let searchPath :=
    match truthyOpt domain? with
    | some d => w.base ++ "/app/" ++ d
    | none => w.base ++ "/app"
  if w.existsSync searchPath then
    let files := w.glob ("**/*" ++ entity ++ "*.php") searchPath
      ["**/vendor/**", "**/node_modules/**"] true
    let testFiles := w.glob ("**/*" ++ entity ++ "*Test.php")
      (w.base ++ "/tests") [] true
    let rel := fun l => List.map (relativePath w) l
    Except.ok
      { entity_name := entity
        search_domain := jsOrDefault domain? "all domains"
        total_files := files.length + testFiles.length
        files :=
          { controllers := rel (files.filter fun f => sIncludes f "Controller")
            repositories := rel (files.filter fun f =>
              sIncludes f "Repository" && !(sIncludes f "Interface"))
            repository_interfaces := rel (files.filter fun f =>
              sIncludes f "Repository" && sIncludes f "Interface")
            transformers := rel (files.filter fun f => sIncludes f "Transformer")
            models := rel (files.filter fun f => sIncludes f "/Models/")
            entities := rel (files.filter fun f => sIncludes f "/Entities/")
            requests := rel (files.filter fun f => sIncludes f "Request")
            services := rel (files.filter fun f => sIncludes f "Service")
            tests := rel testFiles } }
  else Except.error ("Search path not found: " ++ searchPath)

structure FormattedCol where
  name : String
  colType : String
  nullable : Bool
  key : String
  defaultVal : Option String
  extra : String
deriving Repr, DecidableEq

structure FormattedSchema where
  table : String
  columns : List FormattedCol
deriving Repr, DecidableEq

/-- The two success shapes of `query_database_schema`: the formatted
column listing from the primary method, or the raw text of a migration
file from the fallback. -/
inductive SchemaResult where
  | cols (s : FormattedSchema)
  | migration (text : String)
deriving Repr, DecidableEq

/-- `queryDatabaseSchema`: primary `DESCRIBE` via tinker; on failure,
fall back to the first matching migration file; rethrow with the cause
only when no migration matches.  (`fs.readFileSync` of the found
migration is not wrapped: a read failure propagates.) -/
def queryDatabaseSchema (w : World) (table? : Option String) :
    Except String SchemaResult :=
  let t := jsShow table?
  match w.describe t with
  | Except.ok rows =>
    Except.ok (SchemaResult.cols
      { table := t
        columns := rows.map fun c =>
          { name := c.field
            colType := c.colType
            nullable := c.nullFlag == "YES"
            key := c.key
            defaultVal := c.defaultVal
            extra := c.extra } })
  | Except.error e =>
    let migrations := w.glob ("**/*_create_" ++ t ++ "_table.php")
      (w.base ++ "/database/migrations") [] true
    match migrations with
    | [] => Except.error
        ("Could not retrieve schema for table \x27" ++ t ++ "\x27. Error: " ++ e)
    | m :: _ =>
      match w.readFile m with
      | Except.ok content => Except.ok (SchemaResult.migration
          ("Could not query database directly. Found migration file:\n\n" ++ content))
      | Except.error re => Except.error re

/-- `runPhpstan`: the analysis output is surfaced as success text whether
or not the external process exited non-zero. -/
def runPhpstan (w : World) (path? : Option String) : Except String String :=
  match path? with
  | none => Except.error nodePathTypeError
  | some p =>
    let fullPath := w.base ++ "/" ++ p
    if w.existsSync fullPath then
      match w.phpstan p with
      | Except.ok out =>
        Except.ok ("PHPStan analysis for " ++ p ++ ":\n\n" ++ out)
      | Except.error eOut =>
        Except.ok ("PHPStan analysis for " ++ p ++ ":\n\n" ++ eOut)
    else Except.error ("Path not found: " ++ p)

/-! ## QueryEngine: route discovery -/

/-- The result of `find_route_by_name`:
`route_name` is `route.name` verbatim (nullable), `middleware` is
`route.middleware || []`, `domain` comes from `extractDomain`. -/
structure RouteByNameResult where
  route_name : Option String
  method : String
  uri : String
  controller : String
  middleware : List String
  domain : Option String
deriving Repr, DecidableEq

/-- `findRouteByName`. -/
def findRouteByName (w : World) (st : CacheState) (route_name? : Option String) :
    Except String RouteByNameResult × CacheState :=
  match getRoutes st w.now w.routeListing with
  | (Except.error e, st2, _) => (Except.error e, st2)
  | (Except.ok routes, st2, _) =>
    match routes.find? (fun r =>
        match route_name? with
        | some n => r.name == some n
        | none => false) with
    | none =>
      (Except.error ("Route \x27" ++ jsShow route_name? ++ "\x27 not found"), st2)
    | some r =>
      (Except.ok
        { route_name := r.name
          method := r.method
          uri := r.uri
          controller := r.action
          middleware := r.middleware.getD []
          domain := extractDomain r.action }, st2)

/-- A route as echoed by `find_routes_for_controller`
(`route_name` is `r.name || null`). -/
structure RouteListItem where
  method : String
  uri : String
  route_name : Option String
  action : String
  middleware : List String
deriving Repr, DecidableEq

structure ControllerRoutesResult where
  controller_name : String
  domain : String
  total_routes : Nat
  routes : List RouteListItem
deriving Repr, DecidableEq

/-- `findRoutesForController`.  The `r.action &&` truthiness guard of the
source excludes empty action strings. -/
def findRoutesForController (w : World) (st : CacheState)
    (controller? domain? : Option String) :
    Except String ControllerRoutesResult × CacheState :=
  let cn := jsShow controller?
  match getRoutes st w.now w.routeListing with
  | (Except.error e, st2, _) => (Except.error e, st2)
  | (Except.ok routes, st2, _) =>
    let filtered := routes.filter fun (r : Route) =>
      !(r.action == "") && sIncludes r.action cn
    let filtered :=
      match domain? with
      | some d => filtered.filter fun (r : Route) =>
          !(r.action == "") && sIncludes r.action ("App\\" ++ d ++ "\\")
      | none => filtered
    (Except.ok
      { controller_name := cn
        domain := jsOrDefault domain? "all domains"
        total_routes := filtered.length
        routes := filtered.map fun (r : Route) =>
          { method := r.method
            uri := r.uri
            route_name := truthyOpt r.name
            action := r.action
            middleware := r.middleware.getD [] } }, st2)

/-- A route as echoed by `list_all_routes` / `list_api_endpoints` /
`find_endpoint_details`. -/
structure RouteDetail where
  method : String
  uri : String
  name : Option String
  controller : String
  middleware : List String
  domain : Option String
deriving Repr, DecidableEq

def routeDetailOf (r : Route) : RouteDetail :=
  { method := r.method
    uri := r.uri
    name := truthyOpt r.name
    controller := r.action
    middleware := r.middleware.getD []
    domain := extractDomain r.action }

structure AllRoutesResult where
  total_routes : Nat
  domainFilter : Option String
  methodFilter : Option String
  middlewareFilter : Option String
  prefixFilter : Option String
  by_method : List (String × Nat)
  by_domain : List (String × Nat)
  routes : List RouteDetail
deriving Repr, DecidableEq

/-- `byMethod[k] = (byMethod[k] || 0) + 1` over a JavaScript object:
keys appear in first-insertion order. -/
def bump (acc : List (String × Nat)) (k : String) : List (String × Nat) :=
  if acc.any (fun p => p.1 == k) then
    acc.map fun p => if p.1 == k then (p.1, p.2 + 1) else p
  else acc ++ [(k, 1)]

/-- `listAllRoutes`. -/
def listAllRoutes (w : World) (st : CacheState)
    (domain? method? middleware? prefixArg? : Option String) :
    Except String AllRoutesResult × CacheState :=
  match getRoutes st w.now w.routeListing with
  | (Except.error e, st2, _) => (Except.error e, st2)
  | (Except.ok routes0, st2, _) =>
    let routes :=
      match domain? with
      | some d => routes0.filter fun (r : Route) =>
          !(r.action == "") && sIncludes r.action ("App\\" ++ d ++ "\\")
      | none => routes0
    let routes :=
      match method? with
      | some m => routes.filter fun (r : Route) => r.method == m
      | none => routes
    let routes :=
      match middleware? with
      | some mw => routes.filter fun (r : Route) =>
          match r.middleware with
          | some ml => ml.contains mw
          | none => false
      | none => routes
    let routes :=
      match prefixArg? with
      | some p => routes.filter fun (r : Route) =>
          !(r.uri == "") && jsStartsWith r.uri p
      | none => routes
    let byMethod := routes.foldl (fun acc (r : Route) => bump acc r.method) []
    let byDomain := routes.foldl (fun acc (r : Route) =>
      match extractDomain r.action with
      | some d => bump acc d
      | none => acc) []
    (Except.ok
      { total_routes := routes.length
        domainFilter := domain?
        methodFilter := method?
        middlewareFilter := middleware?
        prefixFilter := prefixArg?
        by_method := byMethod
        by_domain := byDomain
        routes := routes.map routeDetailOf }, st2)

structure ChainClassRef where
  file : String
  class_name : String
deriving Repr, DecidableEq

structure ChainRepo where
  repoKind : String
  file : String
  class_name : String
deriving Repr, DecidableEq

structure ChainRouteRef where
  method : String
  uri : String
  route_name : Option String
deriving Repr, DecidableEq

structure ChainController where
  file : String
  class_name : String
  routes : List ChainRouteRef
deriving Repr, DecidableEq

structure ServiceChainResult where
  entity_name : String
  domain : String
  model : Option ChainClassRef
  repositories : List ChainRepo
  controllers : List ChainController
  transformers : List ChainClassRef
  validation_requests : List ChainClassRef
deriving Repr, DecidableEq

/-- `findServiceChain`: composes `findRelatedFiles` (whose JSON output it
re-parses, modelled structurally) with `getRoutes`.  When `entity_name`
arrived as `undefined`, `entity_name.toLowerCase()` throws after the
routes were fetched. -/
def findServiceChain (w : World) (st : CacheState)
    (entity? domain? : Option String) :
    Except String ServiceChainResult × CacheState :=
  match findRelatedFiles w entity? domain? with
  | Except.error e => (Except.error e, st)
  | Except.ok related =>
    match getRoutes st w.now w.routeListing with
    | (Except.error e, st2, _) => (Except.error e, st2)
    | (Except.ok routes, st2, _) =>
      match entity? with
      | none => (Except.error undefinedToLowerCaseError, st2)
      | some entity =>
        let entityRoutes := routes.filter fun (r : Route) =>
          !(r.action == "") && sIncludes (lower r.action) (lower entity)
        (Except.ok
          { entity_name := entity
            domain := jsOrDefault domain? "all domains"
            model :=
              match related.files.models with
              | [] => none
              | m :: _ => some { file := m, class_name := extractClassName m }
            repositories := related.files.repositories.map fun f =>
              { repoKind := if sIncludes f "/Domain/" then "domain"
                  else "infrastructure"
                file := f
                class_name := extractClassName f }
            controllers := related.files.controllers.map fun f =>
              let cname := extractClassName f
              { file := f
                class_name := cname
                routes := (entityRoutes.filter fun (r : Route) =>
                    !(r.action == "") && sIncludes r.action cname).map fun (r : Route) =>
                  { method := r.method
                    uri := r.uri
                    route_name := truthyOpt r.name } }
            transformers := related.files.transformers.map fun f =>
              { file := f, class_name := extractClassName f }
            validation_requests := related.files.requests.map fun f =>
              { file := f, class_name := extractClassName f } }, st2)

/-! ## QueryEngine: test coverage -/

structure TestEntry where
  test_file : String
  test_type : String
  test_class : Option String
  line_count : Nat
deriving Repr, DecidableEq

structure CoverageSummary where
  has_unit_tests : Bool
  has_feature_tests : Bool
  has_e2e_tests : Bool
  total_test_count : Nat
deriving Repr, DecidableEq

structure TestsForFileResult where
  source_file : String
  file_type : String
  tests : List TestEntry
  coverage_summary : CoverageSummary
deriving Repr, DecidableEq

/-- `findTestsForFile`. -/
def findTestsForFile (w : World) (file_path? : Option String) :
    Except String TestsForFileResult :=
  match file_path? with
  | none => Except.error nodePathTypeError
  | some fp =>
    let className := extractClassName fp
    let fileType :=
      if sIncludes fp "Controller" then "controller"
      else if sIncludes fp "Repository" then "repository"
      else if sIncludes fp "Model" then "model"
      else if sIncludes fp "Service" then "service"
      else if sIncludes fp "Transformer" then "transformer"
      else if jsEndsWith fp ".vue" then "component"
      else "unknown"
    let unitTests := w.glob ("tests/Unit/**/*" ++ className ++ "*Test.php")
      w.base [] true
    let featureTests := w.glob ("tests/Feature/**/*" ++ className ++ "*Test.php")
      w.base [] true
    let cypressTests := w.glob ("cypress/e2e/**/*" ++ className ++ "*.cy.js")
      w.base [] true
    let tests :=
      unitTests.map (fun t =>
        ({ test_file := relativePath w t
           test_type := "unit"
           test_class := some (extractClassName t)
           line_count := countLines w t } : TestEntry)) ++
      featureTests.map (fun t =>
        ({ test_file := relativePath w t
           test_type := "feature"
           test_class := some (extractClassName t)
           line_count := countLines w t } : TestEntry)) ++
      cypressTests.map (fun t =>
        ({ test_file := relativePath w t
           test_type := "cypress"
           test_class := none
           line_count := countLines w t } : TestEntry))
    let tests :=
      if fileType == "component" then
        tests ++ (w.glob
          ("app/**/UI/resources/js/components/**/__tests__/*" ++ className ++ "*.cy.js")
          w.base [] true).map fun t =>
          ({ test_file := relativePath w t
             test_type := "cypress"
             test_class := none
             line_count := countLines w t } : TestEntry)
      else tests
    Except.ok
      { source_file := fp
        file_type := fileType
        tests := tests
        coverage_summary :=
          { has_unit_tests := tests.any (fun t => t.test_type == "unit")
            has_feature_tests := tests.any (fun t => t.test_type == "feature")
            has_e2e_tests := tests.any (fun t => t.test_type == "cypress")
            total_test_count := tests.length } }

structure UntestedEntry where
  file : String
  file_type : String
  domain : String
  suggested_test_location : String
  complexity_score : Nat
deriving Repr, DecidableEq

structure UntestedSummary where
  total_files : Nat
  tested_files : Nat
  untested_files : Nat
  coverage_percentage : Nat
deriving Repr, DecidableEq

structure UntestedResult where
  domain : String
  file_type_filter : String
  untested_files : List UntestedEntry
  summary : UntestedSummary
deriving Repr, DecidableEq

/-- Bit length of a natural number.  The recursion is fuel-bounded and
structural (each step halves the argument), with fuel covering the whole
binary64 normal range. -/
def bitLenAux : Nat → Nat → Nat
  | 0, _ => 0
  | fuel + 1, n => if n = 0 then 0 else 1 + bitLenAux fuel (n / 2)

def bitLen (n : Nat) : Nat := bitLenAux 1100 n

/-- Nearest integer to `a / b` (with `b > 0`), ties to even: the IEEE-754
default rounding applied to an exactly scaled value. -/
def rneNat (a b : Nat) : Nat :=
  let q := a / b
  let r := a % b
  if 2 * r < b then q
  else if b < 2 * r then q + 1
  else if q % 2 = 0 then q else q + 1

/-- The binade exponent of the positive fraction `a / b`: the unique `e`
with `2^e ≤ a/b < 2^(e+1)`. -/
def binExpF (a b : Nat) : Int :=
  let e0 : Int := (bitLen a : Int) - (bitLen b : Int)
  if (if 0 ≤ e0 then 2 ^ e0.toNat * b ≤ a else b ≤ 2 ^ (-e0).toNat * a) then e0
  else e0 - 1

/-- The binary64 (IEEE-754 double) value nearest to `a / b`, as an exact
fraction (numerator, power-of-two denominator): the 53-bit significand is
obtained by rounding `a/b * 2^(52-e)` to the nearest integer, ties to
even.  Exact on the normal range, which covers every value arising from
the file counts of this system; zero maps to zero. -/
def fl64Pair (a b : Nat) : Nat × Nat :=
  if a = 0 then (0, 1)
  else
    let e := binExpF a b
    let ya := if 0 ≤ 52 - e then a * 2 ^ (52 - e).toNat else a
    let yb := if 0 ≤ 52 - e then b else b * 2 ^ (e - 52).toNat
    let m := rneNat ya yb
    if 0 ≤ 52 - e then (m, 2 ^ (52 - e).toNat) else (m * 2 ^ (e - 52).toNat, 1)

/-- The double computed by `(testedCount / files.length) * 100`: the
division is the correctly rounded double of `K/N`, the multiplication the
correctly rounded double of its exact product with 100 (100 and the
integer operands are exact doubles). -/
def coverageDouble (tested total : Nat) : Nat × Nat :=
  fl64Pair ((fl64Pair tested total).1 * 100) (fl64Pair tested total).2

/-- `Math.round((testedCount / files.length) * 100) || 0`: when the file
count is zero the expression is `Math.round(NaN) || 0 = 0`; otherwise the
division and the multiplication are binary64 operations (`coverageDouble`)
and `Math.round` maps the exact value of the resulting double to the
nearest integer, halves toward positive infinity:
`floor(a/b + 1/2) = (2*a + b) / (2*b)` in natural division.  Because the
operations round, this differs from exact rational rounding of
`100*K/N` at boundary inputs: 23 of 40 yields 57, not 58
(`coverage_math_counterexample`). -/
def jsCoverage (tested total : Nat) : Nat :=
  if total = 0 then 0
  else (2 * (coverageDouble tested total).1 + (coverageDouble tested total).2) /
    (2 * (coverageDouble tested total).2)

/-- `findUntestedFiles`.  No domain validation and no existence check are
performed: the domain string goes straight into the glob patterns.  A
missing `domain` argument makes `path.join` throw. -/
def findUntestedFiles (w : World) (domain? file_type? : Option String) :
    Except String UntestedResult :=
  match domain? with
  | none => Except.error nodePathTypeError
  | some domain =>
    let domainPath := w.base ++ "/app/" ++ domain
    let files :=
      match file_type? with
      | some "controller" =>
        w.glob (domainPath ++ "/**/*Controller.php") "" [] true
      | some "repository" =>
        w.glob (domainPath ++ "/**/*Repository.php") "" ["**/*Interface.php"] true
      | some "model" =>
        w.glob (domainPath ++ "/**/Models/**/*.php") "" [] true
      | some "service" =>
        w.glob (domainPath ++ "/**/*Service.php") "" [] true
      | _ =>
        w.glob (domainPath ++ "/**/*.php") ""
          ["**/vendor/**", "**/node_modules/**"] true
    let step := fun (acc : List UntestedEntry × Nat) (file : String) =>
      let className := extractClassName file
      let unitTests := w.glob ("tests/Unit/**/*" ++ className ++ "*Test.php")
        w.base [] false
      let featureTests := w.glob ("tests/Feature/**/*" ++ className ++ "*Test.php")
        w.base [] false
      if unitTests.length = 0 ∧ featureTests.length = 0 then
        (acc.1 ++ [{ file := relativePath w file
                     file_type := jsOrDefault file_type? "unknown"
                     domain := domain
                     suggested_test_location :=
                       "tests/Unit/" ++ domain ++ "/" ++ className ++ "Test.php"
                     complexity_score := countLines w file }], acc.2)
      else (acc.1, acc.2 + 1)
    let scanned := files.foldl step ([], 0)
    Except.ok
      { domain := domain
        file_type_filter := jsOrDefault file_type? "all"
        untested_files := scanned.1
        summary :=
          { total_files := files.length
            tested_files := scanned.2
            untested_files := scanned.1.length
            coverage_percentage := jsCoverage scanned.2 files.length } }

structure TestBaseClass where
  class_name : String
  file : String
  domain : String
deriving Repr, DecidableEq

structure TestStructureInfo where
  test_base_classes : List TestBaseClass
  test_directories : List (String × String)
  test_naming_conventions : List (String × String)
  test_commands : List (String × String)
deriving Repr, DecidableEq

/-- `getTestStructureInfo`: a static result. -/
def getTestStructureInfo : TestStructureInfo :=
  { test_base_classes :=
      [{ class_name := "BikerTestCase", file := "tests/BikerTestCase.php",
         domain := "Customer" },
       { class_name := "DealerTestCase", file := "tests/DealerTestCase.php",
         domain := "Dealer" },
       { class_name := "FleetTestCase", file := "tests/FleetTestCase.php",
         domain := "Employer" },
       { class_name := "UnifiedTestCase", file := "tests/UnifiedTestCase.php",
         domain := "Core" },
       { class_name := "TestCase", file := "tests/TestCase.php",
         domain := "All" }]
    test_directories :=
      [("unit", "tests/Unit"), ("feature", "tests/Feature"),
       ("e2e", "cypress/e2e")]
    test_naming_conventions :=
      [("unit_tests", "tests/Unit/\x7bDomain\x7d/\x7bClass\x7dTest.php"),
       ("feature_tests", "tests/Feature/\x7bDomain\x7d/\x7bFeature\x7dTest.php"),
       ("cypress_tests",
         "cypress/e2e/\x7bdomain\x7d/specs/\x7bfeature\x7d/\x7bTest\x7d.cy.js"),
       ("component_tests",
         "app/\x7bDomain\x7d/UI/resources/js/components/**/__tests__/*.cy.js")]
    test_commands :=
      [("run_all", "vendor/bin/sail test"),
       ("run_specific", "vendor/bin/sail test <path>"),
       ("run_cypress_smoke", "npm run smoketest"),
       ("run_cypress_all", "npm run test")] }

/-! ## QueryEngine: component usage and Inertia pages -/

/-- The regex `import.*NAME.*from` with the `i` flag: `.` does not cross
newlines and the three literals contain none, so a match exists exactly
when some line contains "import", then the name, then "from", in order
and case-insensitively.  Taking the first occurrence of each literal in
turn is complete: any in-order occurrence triple can be shifted left onto
first occurrences. -/
def importMatches (cname content : String) : Bool :=
  let n := (lower cname).toList
  (splitOnChar '\n' [] (lower content).toList).any fun line =>
    match dropAfterFirst "import".toList line with
    | none => false
    | some r1 =>
      match dropAfterFirst n r1 with
      | none => false
      | some r2 => (dropAfterFirst "from".toList r2).isSome

/-- The global regex `<NAME` with the `gi` flags: the number of
non-overlapping occurrences of the literal, case-insensitively. -/
def countTags (cname content : String) : Nat :=
  countOccs ('<' :: (lower cname).toList) (lower content).toList

structure Usage where
  file : String
  file_type : String
  domain : Option String
  usage_count : Nat
deriving Repr, DecidableEq

structure UsageSummary where
  total_usages : Nat
  files_using : Nat
  pages_using : Nat
  components_using : Nat
  domains_using : List String
deriving Repr, DecidableEq

structure ComponentDef where
  file : String
  domain : Option String
deriving Repr, DecidableEq

structure ComponentUsageResult where
  component_name : String
  component_definition : ComponentDef
  usages : List Usage
  usage_summary : UsageSummary
deriving Repr, DecidableEq

/-- The scan loop of `findComponentUsage`: reads every `.vue` file in
order (an unguarded read failure aborts the whole operation, as
`fs.readFileSync` throws) and collects a usage entry exactly for the
files whose content matches the import pattern and whose template-tag
count is positive. -/
def scanUsages (w : World) (cname : String) : List String → Except String (List Usage)
  | [] => Except.ok []
  | vf :: rest =>
    match w.readFile vf with
    | Except.error e => Except.error e
    | Except.ok content =>
      if importMatches cname content then
        let cnt := countTags cname content
        if cnt > 0 then
          match scanUsages w cname rest with
          | Except.error e => Except.error e
          | Except.ok us =>
            Except.ok ({ file := relativePath w vf
                         file_type := if sIncludes vf "/pages/" then "page"
                           else "component"
                         domain := extractDomain vf
                         usage_count := cnt } :: us)
        else scanUsages w cname rest
      else scanUsages w cname rest

/-- `findComponentUsage`. -/
def findComponentUsage (w : World) (component? domain? : Option String) :
    Except String ComponentUsageResult :=
  let cname := jsShow component?
  let searchPath :=
    match truthyOpt domain? with
    | some d => w.base ++ "/app/" ++ d ++ "/UI/resources/js"
    | none => w.base ++ "/app"
  let componentFiles := w.glob ("**/" ++ cname ++ ".vue") searchPath [] true
  match componentFiles with
  | [] => Except.error ("Component \x27" ++ cname ++ "\x27 not found")
  | cf :: _ =>
    let allVue := w.glob "app/**/UI/resources/js/**/*.vue" w.base [] true
    match scanUsages w cname allVue with
    | Except.error e => Except.error e
    | Except.ok usages =>
      Except.ok
        { component_name := cname
          component_definition :=
            { file := relativePath w cf, domain := extractDomain cf }
          usages := usages
          usage_summary :=
            { total_usages := usages.foldl (fun s u => s + u.usage_count) 0
              files_using := usages.length
              pages_using := (usages.filter fun u => u.file_type == "page").length
              components_using :=
                (usages.filter fun u => u.file_type == "component").length
              domains_using := dedupFirst (usages.filterMap Usage.domain) } }

structure UnusedComponent where
  component_name : String
  file : String
  domain : Option String
  last_modified : String
  lines_of_code : Nat
deriving Repr, DecidableEq

structure UnusedSummary where
  total_components : Nat
  used_components : Nat
  unused_components : Nat
deriving Repr, DecidableEq

structure UnusedComponentsResult where
  domain : String
  unused_components : List UnusedComponent
  summary : UnusedSummary
deriving Repr, DecidableEq

/-- The inner loop of `findUnusedComponents`: is the component imported
by any other `.vue` file?  Breaks at the first importer; an unguarded
read failure aborts. -/
def findImporter (w : World) (cname self : String) :
    List String → Except String Bool
  | [] => Except.ok false
  | vf :: rest =>
    if vf == self then findImporter w cname self rest
    else
      match w.readFile vf with
      | Except.error e => Except.error e
      | Except.ok content =>
        if importMatches cname content then Except.ok true
        else findImporter w cname self rest

/-- The outer loop of `findUnusedComponents`. -/
def scanUnused (w : World) (allVue : List String) :
    List String → Except String (List UnusedComponent × Nat)
  | [] => Except.ok ([], 0)
  | cf :: rest =>
    let cname := extractClassName cf
    match findImporter w cname cf allVue with
    | Except.error e => Except.error e
    | Except.ok used =>
      match scanUnused w allVue rest with
      | Except.error e => Except.error e
      | Except.ok (us, usedCount) =>
        if used then Except.ok (us, usedCount + 1)
        else
          Except.ok ({ component_name := cname
                       file := relativePath w cf
                       domain := extractDomain cf
                       last_modified := w.mtimeIso cf
                       lines_of_code := countLines w cf } :: us, usedCount)

/-- `findUnusedComponents`. -/
def findUnusedComponents (w : World) (domain? : Option String) :
    Except String UnusedComponentsResult :=
  let searchPath :=
    match truthyOpt domain? with
    | some d => w.base ++ "/app/" ++ d ++ "/UI/resources/js/components"
    | none => w.base ++ "/app/**/UI/resources/js/components"
  let componentFiles := w.glob "**/*.vue" searchPath
    ["**/Shared/**", "**/Layout/**"] true
  let allVue := w.glob "app/**/UI/resources/js/**/*.vue" w.base [] true
  match scanUnused w allVue componentFiles with
  | Except.error e => Except.error e
  | Except.ok (unused, usedCount) =>
    Except.ok
      { domain := jsOrDefault domain? "all domains"
        unused_components := unused
        summary :=
          { total_components := componentFiles.length
            used_components := usedCount
            unused_components := unused.length } }

structure PageInfo where
  domain : Option String
  page_name : Option String
  file_path : String
deriving Repr, DecidableEq

structure InertiaPagesResult where
  domain : String
  total_pages : Nat
  pages : List PageInfo
deriving Repr, DecidableEq

/-- The regex `pages\/(.+)\.vue$` applied with `.match` (first match):
the leftmost position where "pages/" is followed by at least one
character and the string ends in ".vue".  Because end-of-string is a
global property, this is: the suffix after the first "pages/", with the
final ".vue" removed, provided that suffix is longer than the
extension. -/
def pageNameOf (rel : String) : Option String :=
  match dropAfterFirst "pages/".toList rel.toList with
  | none => none
  | some rest =>
    if 4 < rest.length ∧ ".vue".toList.isSuffixOf rest then
      some (String.mk (rest.take (rest.length - 4)))
    else none

/-- `listInertiaPages`. -/
def listInertiaPages (w : World) (domain? : Option String) :
    Except String InertiaPagesResult :=
  let searchPath :=
    match truthyOpt domain? with
    | some d => w.base ++ "/app/" ++ d ++ "/UI/resources/js/pages"
    | none => w.base ++ "/app/**/UI/resources/js/pages"
  let pageFiles := w.glob "**/*.vue" searchPath [] true
  let pages := pageFiles.map fun pf =>
    let rel := relativePath w pf
    ({ domain := extractDomain pf
       page_name := pageNameOf rel
       file_path := rel } : PageInfo)
  Except.ok
    { domain := jsOrDefault domain? "all domains"
      total_pages := pages.length
      pages := pages }

structure PageController where
  controller : String
  class_name : String
deriving Repr, DecidableEq

structure PagePropsResult where
  page_name : String
  page_file : String
  controllers_using_page : List PageController
deriving Repr, DecidableEq

/-- The regex `Inertia::render\(['"]NAME['"]` with the `i` flag: the
content contains, case-insensitively, the literal call with the page
name in single or double quotes. -/
def renderMatches (pn content : String) : Bool :=
  let c := lower content
  sIncludes c (lower ("Inertia::render(\x27" ++ pn ++ "\x27")) ||
    sIncludes c (lower ("Inertia::render(\"" ++ pn ++ "\""))

/-- The controller scan of `findPageProps` (unguarded reads). -/
def scanRenderers (w : World) (pn : String) :
    List String → Except String (List PageController)
  | [] => Except.ok []
  | cf :: rest =>
    match w.readFile cf with
    | Except.error e => Except.error e
    | Except.ok content =>
      match scanRenderers w pn rest with
      | Except.error e => Except.error e
      | Except.ok more =>
        if renderMatches pn content then
          Except.ok ({ controller := relativePath w cf
                       class_name := extractClassName cf } :: more)
        else Except.ok more

/-- `findPageProps`. -/
def findPageProps (w : World) (page_name? : Option String) :
    Except String PagePropsResult :=
  let pn := jsShow page_name?
  let pageFiles := w.glob ("app/**/UI/resources/js/pages/" ++ pn ++ ".vue")
    w.base [] true
  match pageFiles with
  | [] => Except.error ("Page \x27" ++ pn ++ "\x27 not found")
  | pf :: _ =>
    let controllerFiles := w.glob "app/**/*Controller.php" w.base [] true
    match scanRenderers w pn controllerFiles with
    | Except.error e => Except.error e
    | Except.ok controllers =>
      Except.ok
        { page_name := pn
          page_file := relativePath w pf
          controllers_using_page := controllers }

/-! ## QueryEngine: API endpoints and database helpers -/

structure ApiEndpointsResult where
  prefixUsed : String
  domain : String
  total_endpoints : Nat
  endpoints : List RouteDetail
deriving Repr, DecidableEq

/-- `listApiEndpoints`. -/
def listApiEndpoints (w : World) (st : CacheState)
    (domain? prefixArg? : Option String) :
    Except String ApiEndpointsResult × CacheState :=
  match getRoutes st w.now w.routeListing with
  | (Except.error e, st2, _) => (Except.error e, st2)
  | (Except.ok routes0, st2, _) =>
    let apiPre := jsOrDefault prefixArg? "/async"
    let routes := routes0.filter fun (r : Route) =>
      !(r.uri == "") && jsStartsWith r.uri apiPre
    let routes :=
      match truthyOpt domain? with
      | some d => routes.filter fun (r : Route) =>
          !(r.action == "") && sIncludes r.action ("App\\" ++ d ++ "\\")
      | none => routes
    (Except.ok
      { prefixUsed := apiPre
        domain := jsOrDefault domain? "all domains"
        total_endpoints := routes.length
        endpoints := routes.map routeDetailOf }, st2)

structure EndpointDetailsResult where
  endpoint : RouteDetail
deriving Repr, DecidableEq

/-- `findEndpointDetails`. -/
def findEndpointDetails (w : World) (st : CacheState)
    (uri? route_name? : Option String) :
    Except String EndpointDetailsResult × CacheState :=
  if truthyOpt uri? = none ∧ truthyOpt route_name? = none then
    (Except.error "Either uri or route_name must be provided", st)
  else
    match getRoutes st w.now w.routeListing with
    | (Except.error e, st2, _) => (Except.error e, st2)
    | (Except.ok routes, st2, _) =>
      let route :=
        match truthyOpt uri? with
        | some u => routes.find? fun (r : Route) => r.uri == u
        | none =>
          match route_name? with
          | some rn => routes.find? fun (r : Route) => r.name == some rn
          | none => none
      match route with
      | none => (Except.error "Endpoint not found", st2)
      | some r => (Except.ok { endpoint := routeDetailOf r }, st2)

/-- One position of the regex
`protected\s+\$table\s*=\s*['"]NAME['"]` (no flags): literal keywords
separated by mandatory/optional whitespace, then the quoted table name.
Maximal-munch on `\s+`/`\s*` is complete because the following literals
start with non-whitespace. -/
def matchTableAt (t : List Char) (s : List Char) : Bool :=
  match stripPre "protected".toList s with
  | none => false
  | some r1 =>
    if r1.takeWhile isWs |>.isEmpty then false
    else
      match stripPre "$table".toList (r1.dropWhile isWs) with
      | none => false
      | some r2 =>
        match stripPre "=".toList (r2.dropWhile isWs) with
        | none => false
        | some r3 =>
          let r4 := r3.dropWhile isWs
          (stripPre ("\x27" ++ String.mk t ++ "\x27").toList r4).isSome ||
            (stripPre ("\"" ++ String.mk t ++ "\"").toList r4).isSome

def tableDeclMatches (t content : String) : Bool :=
  content.toList.tails.any (matchTableAt t.toList)

/-- The model-search loop of `findTableUsage` (break at first match;
unguarded reads). -/
def findDeclaredModel (w : World) (t : String) :
    List String → Except String (Option String)
  | [] => Except.ok none
  | f :: rest =>
    match w.readFile f with
    | Except.error e => Except.error e
    | Except.ok content =>
      if tableDeclMatches t content then Except.ok (some f)
      else findDeclaredModel w t rest

/-- The raw-query scan of `findTableUsage`: files whose content contains
the literal `DB::table('NAME')`. -/
def scanDirectQueries (w : World) (t : String) :
    List String → Except String (List String)
  | [] => Except.ok []
  | f :: rest =>
    match w.readFile f with
    | Except.error e => Except.error e
    | Except.ok content =>
      match scanDirectQueries w t rest with
      | Except.error e => Except.error e
      | Except.ok more =>
        if sIncludes content ("DB::table(\x27" ++ t ++ "\x27)") then
          Except.ok (f :: more)
        else Except.ok more

structure TableModelRef where
  file : String
  class_name : String
deriving Repr, DecidableEq

structure DirectQuery where
  file : String
  query_type : String
deriving Repr, DecidableEq

structure MigrationRef where
  file : String
  migration_name : String
deriving Repr, DecidableEq

structure TableUsageResult where
  table_name : String
  model : Option TableModelRef
  direct_queries : List DirectQuery
  migrations : List MigrationRef
deriving Repr, DecidableEq

/-- `findTableUsage`. -/
def findTableUsage (w : World) (table? : Option String) :
    Except String TableUsageResult :=
  let t := jsShow table?
  let modelFiles := w.glob "app/**/Models/**/*.php" w.base [] true
  match findDeclaredModel w t modelFiles with
  | Except.error e => Except.error e
  | Except.ok modelFile =>
    let phpFiles := w.glob "app/**/*.php" w.base ["**/vendor/**"] true
    match scanDirectQueries w t phpFiles with
    | Except.error e => Except.error e
    | Except.ok queryFiles =>
      let migrations := w.glob ("database/migrations/**/*" ++ t ++ "*.php")
        w.base [] true
      Except.ok
        { table_name := t
          model := modelFile.map fun f =>
            { file := relativePath w f, class_name := extractClassName f }
          direct_queries := queryFiles.map fun f =>
            { file := relativePath w f, query_type := "query_builder" }
          migrations := migrations.map fun m =>
            { file := relativePath w m, migration_name := extractClassName m } }

structure ScopeInfo where
  scope_name : String
  method_name : String
deriving Repr, DecidableEq

structure ScopesResult where
  model_name : String
  model_path : String
  scopes : List ScopeInfo
  total_scopes : Nat
deriving Repr, DecidableEq

/-- One position of the regex `public\s+function\s+(scope\w+)\s*\(`:
on success, the captured method name and the remainder after the whole
match.  Maximal-munch on `\w+` is complete because the following
characters (`\s*` then `(`) are not word characters. -/
def matchScopeAt (s : List Char) : Option (String × List Char) :=
  match stripPre "public".toList s with
  | none => none
  | some r1 =>
    if r1.takeWhile isWs |>.isEmpty then none
    else
      match stripPre "function".toList (r1.dropWhile isWs) with
      | none => none
      | some r2 =>
        if r2.takeWhile isWs |>.isEmpty then none
        else
          match stripPre "scope".toList (r2.dropWhile isWs) with
          | none => none
          | some r3 =>
            let wrun := r3.takeWhile isWordChar
            if wrun.isEmpty then none
            else
              match (r3.drop wrun.length).dropWhile isWs with
              | '(' :: rest =>
                some (String.mk ("scope".toList ++ wrun), rest)
              | _ => none

/-- All matches of the global scope regex, in document order and without
de-duplication, each scan resuming after the previous whole match.  The
fuel is the input length: every successful match consumes at least one
character, so the bound is never reached. -/
def extractScopesAux : Nat → List Char → List String
  | 0, _ => []
  | _ + 1, [] => []
  | fuel + 1, c :: cs =>
    match matchScopeAt (c :: cs) with
    | some (m, rest) => m :: extractScopesAux fuel rest
    | none => extractScopesAux fuel cs

def extractScopes (content : String) : List String :=
  extractScopesAux content.toList.length content.toList

/-- `findEloquentScopes`. -/
def findEloquentScopes (w : World) (model? domain? : Option String) :
    Except String ScopesResult :=
  let mn := jsShow model?
  let searchPath :=
    match truthyOpt domain? with
    | some d => w.base ++ "/app/" ++ d
    | none => w.base ++ "/app"
  let modelFiles := w.glob ("**/Models/**/" ++ mn ++ ".php") searchPath [] true
  match modelFiles with
  | [] => Except.error ("Model \x27" ++ mn ++ "\x27 not found")
  | mf :: _ =>
    match w.readFile mf with
    | Except.error e => Except.error e
    | Except.ok content =>
      let scopes := (extractScopes content).map fun m =>
        ({ scope_name := lower (replaceFirst m "scope")
           method_name := m } : ScopeInfo)
      Except.ok
        { model_name := mn
          model_path := relativePath w mf
          scopes := scopes
          total_scopes := scopes.length }

/-! ## Dispatcher -/

/-- The structured payload of a successful invocation, one constructor
per capability (the transport serialises it to JSON text). -/
inductive ToolOut where
  | domainStructure (r : StructureResult)
  | relatedFiles (r : RelatedResult)
  | dbSchema (r : SchemaResult)
  | phpstanOut (t : String)
  | routeByName (r : RouteByNameResult)
  | routesForController (r : ControllerRoutesResult)
  | allRoutes (r : AllRoutesResult)
  | serviceChain (r : ServiceChainResult)
  | testsForFile (r : TestsForFileResult)
  | untestedFiles (r : UntestedResult)
  | testStructure (r : TestStructureInfo)
  | componentUsage (r : ComponentUsageResult)
  | unusedComponents (r : UnusedComponentsResult)
  | inertiaPages (r : InertiaPagesResult)
  | pageProps (r : PagePropsResult)
  | apiEndpoints (r : ApiEndpointsResult)
  | endpointDetails (r : EndpointDetailsResult)
  | tableUsage (r : TableUsageResult)
  | eloquentScopes (r : ScopesResult)
deriving Repr, DecidableEq

/-- The argument map of one invocation: every field of every
per-capability cast, each possibly absent. -/
structure CallArgs where
  domain : Option String := none
  entity_name : Option String := none
  table_name : Option String := none
  path : Option String := none
  route_name : Option String := none
  controller_name : Option String := none
  method : Option String := none
  middleware : Option String := none
  prefixArg : Option String := none
  file_path : Option String := none
  file_type : Option String := none
  component_name : Option String := none
  page_name : Option String := none
  uri : Option String := none
  model_name : Option String := none
deriving Repr, DecidableEq

/-- The text of one response: either the serialised structured result of
a successful invocation, or diagnostic text. -/
inductive ResponseBody where
  | payload (o : ToolOut)
  | message (s : String)
deriving Repr, DecidableEq

/-- The outbound envelope: `content` plus the failure flag (`isError` is
absent — falsy — on success). -/
structure CallResponse where
  content : ResponseBody
  isError : Bool
deriving Repr, DecidableEq

/-- The 19 capability names, in the order of the `switch`. -/
def toolNames : List String :=
  ["query_domain_structure", "find_related_files", "query_database_schema",
   "run_phpstan", "find_route_by_name", "find_routes_for_controller",
   "list_all_routes", "find_service_chain", "find_tests_for_file",
   "find_untested_files", "get_test_structure_info", "find_component_usage",
   "find_unused_components", "list_inertia_pages", "find_page_props",
   "list_api_endpoints", "find_endpoint_details", "find_table_usage",
   "find_eloquent_scopes"]

/-- The body of the `try` block: the `switch` over the capability name.
Unknown names raise "Unknown tool". -/
def dispatchTool (w : World) (st : CacheState) (name : String) (args : CallArgs) :
    Except String ToolOut × CacheState :=
  if name = "query_domain_structure" then
    ((queryDomainStructure w args.domain).map ToolOut.domainStructure, st)
  else if name = "find_related_files" then
    ((findRelatedFiles w args.entity_name args.domain).map ToolOut.relatedFiles, st)
  else if name = "query_database_schema" then
    ((queryDatabaseSchema w args.table_name).map ToolOut.dbSchema, st)
  else if name = "run_phpstan" then
    ((runPhpstan w args.path).map ToolOut.phpstanOut, st)
  else if name = "find_route_by_name" then
    let (r, st2) := findRouteByName w st args.route_name
    (r.map ToolOut.routeByName, st2)
  else if name = "find_routes_for_controller" then
    let (r, st2) := findRoutesForController w st args.controller_name args.domain
    (r.map ToolOut.routesForController, st2)
  else if name = "list_all_routes" then
    let (r, st2) := listAllRoutes w st args.domain args.method args.middleware
      args.prefixArg
    (r.map ToolOut.allRoutes, st2)
  else if name = "find_service_chain" then
    let (r, st2) := findServiceChain w st args.entity_name args.domain
    (r.map ToolOut.serviceChain, st2)
  else if name = "find_tests_for_file" then
    ((findTestsForFile w args.file_path).map ToolOut.testsForFile, st)
  else if name = "find_untested_files" then
    ((findUntestedFiles w args.domain args.file_type).map ToolOut.untestedFiles, st)
  else if name = "get_test_structure_info" then
    (Except.ok (ToolOut.testStructure getTestStructureInfo), st)
  else if name = "find_component_usage" then
    ((findComponentUsage w args.component_name args.domain).map
      ToolOut.componentUsage, st)
  else if name = "find_unused_components" then
    ((findUnusedComponents w args.domain).map ToolOut.unusedComponents, st)
  else if name = "list_inertia_pages" then
    ((listInertiaPages w args.domain).map ToolOut.inertiaPages, st)
  else if name = "find_page_props" then
    ((findPageProps w args.page_name).map ToolOut.pageProps, st)
  else if name = "list_api_endpoints" then
    let (r, st2) := listApiEndpoints w st args.domain args.prefixArg
    (r.map ToolOut.apiEndpoints, st2)
  else if name = "find_endpoint_details" then
    let (r, st2) := findEndpointDetails w st args.uri args.route_name
    (r.map ToolOut.endpointDetails, st2)
  else if name = "find_table_usage" then
    ((findTableUsage w args.table_name).map ToolOut.tableUsage, st)
  else if name = "find_eloquent_scopes" then
    ((findEloquentScopes w args.model_name args.domain).map
      ToolOut.eloquentScopes, st)
  else (Except.error ("Unknown tool: " ++ name), st)

/-- The `CallToolRequestSchema` handler: the `try`/`catch` around the
`switch`.  It is a total function into `CallResponse`: every raised
error is converted into the text envelope with the failure flag set. -/
def handleCallTool (w : World) (st : CacheState) (name : String)
    (args : CallArgs) : CallResponse × CacheState :=
  match dispatchTool w st name args with
  | (Except.ok o, st2) => ({ content := ResponseBody.payload o, isError := false }, st2)
  | (Except.error m, st2) =>
    ({ content := ResponseBody.message ("Error executing " ++ name ++ ": " ++ m)
       isError := true }, st2)

/-- A world in which every collaborator is at its quiescent default
(used for concrete instantiations). -/
def emptyWorld : World :=
  { base := "/base"
    now := 0
    existsSync := fun _ => false
    readFile := fun _ => Except.error "ENOENT"
    glob := fun _ _ _ _ => []
    routeListing := Except.error "boom"
    describe := fun _ => Except.error "db down"
    phpstan := fun _ => Except.ok ""
    mtimeIso := fun _ => "1970-01-01T00:00:00.000Z" }

/-- C1: for every capability name and argument map, the handler is a
total function into the response envelope — it never throws to the
transport.  Every error raised during handler execution is caught and
converted into a response whose payload is the human-readable text
"Error executing NAME: MESSAGE" and whose `isError` flag is set; a
successful handler result is wrapped with the flag clear; and a name
outside the capability table yields exactly the "Unknown tool" error
carrying the requested name. -/
theorem dispatcher_never_throws (w : World) (st : CacheState) (name : String)
    (args : CallArgs) :
    ((∃ o st2, dispatchTool w st name args = (Except.ok o, st2) ∧
        handleCallTool w st name args =
          ({ content := ResponseBody.payload o, isError := false }, st2)) ∨
      (∃ m st2, dispatchTool w st name args = (Except.error m, st2) ∧
        handleCallTool w st name args =
          ({ content := ResponseBody.message ("Error executing " ++ name ++ ": " ++ m)
             isError := true }, st2))) ∧
    (¬ name ∈ toolNames →
      handleCallTool w st name args =
        ({ content := ResponseBody.message
             ("Error executing " ++ name ++ ": " ++ ("Unknown tool: " ++ name))
           isError := true }, st)) := by
  constructor
  · rcases hd : dispatchTool w st name args with ⟨r, st2⟩
    cases r with
    | ok o =>
      exact Or.inl ⟨o, st2, rfl, by simp [handleCallTool, hd]⟩
    | error m =>
      exact Or.inr ⟨m, st2, rfl, by simp [handleCallTool, hd]⟩
  · intro h
    have h1 : ¬ name = "query_domain_structure" :=
      fun e => h (by rw [e]; decide)
    have h2 : ¬ name = "find_related_files" :=
      fun e => h (by rw [e]; decide)
    have h3 : ¬ name = "query_database_schema" :=
      fun e => h (by rw [e]; decide)
    have h4 : ¬ name = "run_phpstan" :=
      fun e => h (by rw [e]; decide)
    have h5 : ¬ name = "find_route_by_name" :=
      fun e => h (by rw [e]; decide)
    have h6 : ¬ name = "find_routes_for_controller" :=
      fun e => h (by rw [e]; decide)
    have h7 : ¬ name = "list_all_routes" :=
      fun e => h (by rw [e]; decide)
    have h8 : ¬ name = "find_service_chain" :=
      fun e => h (by rw [e]; decide)
    have h9 : ¬ name = "find_tests_for_file" :=
      fun e => h (by rw [e]; decide)
    have h10 : ¬ name = "find_untested_files" :=
      fun e => h (by rw [e]; decide)
    have h11 : ¬ name = "get_test_structure_info" :=
      fun e => h (by rw [e]; decide)
    have h12 : ¬ name = "find_component_usage" :=
      fun e => h (by rw [e]; decide)
    have h13 : ¬ name = "find_unused_components" :=
      fun e => h (by rw [e]; decide)
    have h14 : ¬ name = "list_inertia_pages" :=
      fun e => h (by rw [e]; decide)
    have h15 : ¬ name = "find_page_props" :=
      fun e => h (by rw [e]; decide)
    have h16 : ¬ name = "list_api_endpoints" :=
      fun e => h (by rw [e]; decide)
    have h17 : ¬ name = "find_endpoint_details" :=
      fun e => h (by rw [e]; decide)
    have h18 : ¬ name = "find_table_usage" :=
      fun e => h (by rw [e]; decide)
    have h19 : ¬ name = "find_eloquent_scopes" :=
      fun e => h (by rw [e]; decide)
    have hd : dispatchTool w st name args = (Except.error ("Unknown tool: " ++ name), st) := by
      simp only [dispatchTool, if_neg h1, if_neg h2, if_neg h3, if_neg h4,
        if_neg h5, if_neg h6, if_neg h7, if_neg h8, if_neg h9, if_neg h10,
        if_neg h11, if_neg h12, if_neg h13, if_neg h14, if_neg h15,
        if_neg h16, if_neg h17, if_neg h18, if_neg h19]
    simp [handleCallTool, hd]

theorem dispatcher_never_throws_witness :
    handleCallTool emptyWorld ⟨none, 0⟩ "bogus_tool" {} =
      ({ content := ResponseBody.message
           ("Error executing " ++ "bogus_tool" ++ ": " ++
             ("Unknown tool: " ++ "bogus_tool"))
         isError := true }, ⟨none, 0⟩) :=
  (dispatcher_never_throws emptyWorld ⟨none, 0⟩ "bogus_tool" {}).2 (by decide)

/-! ## Domain validation and structure-listing claims -/

lemma queryDomainStructure_ok_inv (w : World) (d : String) (res : StructureResult)
    (hok : queryDomainStructure w (some d) = Except.ok res) :
    res = { domain := d
            path := w.base ++ "/app/" ++ d
            total_files := (w.glob (w.base ++ "/app/" ++ d ++ "/**/*.php") ""
              ["**/vendor/**", "**/node_modules/**"] false).length
            files := (structureBuckets (w.glob (w.base ++ "/app/" ++ d ++ "/**/*.php") ""
              ["**/vendor/**", "**/node_modules/**"] false)).map fun b =>
                (b.1, b.2.map (relativePath w)) } := by
  simp only [queryDomainStructure, jsShow, Option.getD] at hok
  split at hok
  · split at hok
    · exact (Except.ok.injEq _ _ ▸ hok).symm
    · exact absurd hok (by simp)
  · exact absurd hok (by simp)

/-- C4 fails on the code: `find_untested_files` accepts a domain
argument, yet an out-of-set domain produces a successful (empty) report
rather than a usage error — no domain validation is performed there. -/
theorem domain_validation_counterexample :
    findUntestedFiles emptyWorld (some "Bogus") none =
      Except.ok { domain := "Bogus"
                  file_type_filter := "all"
                  untested_files := []
                  summary := { total_files := 0, tested_files := 0,
                               untested_files := 0, coverage_percentage := 0 } } ∧
    ¬ "Bogus" ∈ VALID_DOMAINS := by
  constructor
  · decide
  · decide

/-- C4 (amended): `query_domain_structure` fails with the
domain-validation usage error for any domain outside
{Core, Customer, Dealer, Employer} and accepts each member without a
domain-validation error (its only other outcome is the path-existence
failure); `find_untested_files`, by contrast, performs no domain
validation: it succeeds for every domain string. -/
theorem domain_validation_amended (w : World) (d : String) :
    (¬ d ∈ VALID_DOMAINS →
      queryDomainStructure w (some d) = Except.error (invalidDomainMsg d)) ∧
    (d ∈ VALID_DOMAINS →
      queryDomainStructure w (some d) =
          Except.error ("Domain path not found: " ++ (w.base ++ "/app/" ++ d)) ∨
        ∃ r, queryDomainStructure w (some d) = Except.ok r) ∧
    (∀ ft, ∃ r, findUntestedFiles w (some d) ft = Except.ok r) := by
  refine ⟨fun h => ?_, fun h => ?_, fun ft => ⟨_, rfl⟩⟩
  · simp [queryDomainStructure, jsShow, h]
  · cases hex : w.existsSync (w.base ++ "/app/" ++ d) with
    | false =>
      exact Or.inl (by simp [queryDomainStructure, jsShow, h, hex])
    | true =>
      have hok : queryDomainStructure w (some d) =
          Except.ok
            { domain := d
              path := w.base ++ "/app/" ++ d
              total_files := (w.glob (w.base ++ "/app/" ++ d ++ "/**/*.php") ""
                ["**/vendor/**", "**/node_modules/**"] false).length
              files := (structureBuckets
                (w.glob (w.base ++ "/app/" ++ d ++ "/**/*.php") ""
                  ["**/vendor/**", "**/node_modules/**"] false)).map fun b =>
                    (b.1, b.2.map (relativePath w)) } := by
        simp [queryDomainStructure, jsShow, h, hex]
      exact Or.inr ⟨_, hok⟩

theorem domain_validation_amended_witness :
    queryDomainStructure emptyWorld (some "Bogus") =
      Except.error (invalidDomainMsg "Bogus") ∧
    (queryDomainStructure emptyWorld (some "Core") =
        Except.error ("Domain path not found: " ++
          (emptyWorld.base ++ "/app/" ++ "Core")) ∨
      ∃ r, queryDomainStructure emptyWorld (some "Core") = Except.ok r) ∧
    (∃ r, findUntestedFiles emptyWorld (some "Core") none = Except.ok r) :=
  ⟨(domain_validation_amended emptyWorld "Bogus").1 (by decide),
   (domain_validation_amended emptyWorld "Core").2.1 (by decide),
   (domain_validation_amended emptyWorld "Core").2.2 none⟩

/-- A domain directory containing a single file whose path contains
"Service" and "Exception" and whose filename ends in "Test". -/
def serviceTestWorld : World :=
  { emptyWorld with
    existsSync := fun _ => true
    glob := fun p _ _ _ =>
      if p = "/base/app/Core/**/*.php" then
        ["/base/app/Core/Services/FooServiceExceptionTest.php"]
      else [] }

/-- C5 fails on the code: the structure listing of
`query_domain_structure` has no test bucket at all (its buckets are
controllers, repositories, repository_interfaces, transformers,
requests, models, entities, services, exceptions).  At the concrete
input below, the file whose path contains "Service" and whose filename
ends in "Test" is in the services bucket, but the lookup of a "tests"
bucket in the result yields `none` — so it cannot appear "in the test
bucket of the same result" as claimed. -/
theorem classification_counterexample :
    (queryDomainStructure serviceTestWorld (some "Core")).map
        (fun r => (r.files.lookup "services", r.files.lookup "tests")) =
      Except.ok (some ["app/Core/Services/FooServiceExceptionTest.php"], none) := by
  decide

/-- C5 (amended): classification in a structure listing is non-exclusive
over the nine buckets that exist — every glob-matched file whose path
contains "Service" appears (relativised) in the services bucket, and one
that also contains "Exception" appears in the exceptions bucket of the
same result — but the result carries no test bucket, so a file whose
name ends in "Test" has no test bucket to appear in. -/
theorem classification_nonexclusive_amended (w : World) (d : String)
    (res : StructureResult)
    (hok : queryDomainStructure w (some d) = Except.ok res) :
    res.files.lookup "tests" = none ∧
    ∀ g ∈ w.glob (w.base ++ "/app/" ++ d ++ "/**/*.php") ""
        ["**/vendor/**", "**/node_modules/**"] false,
      (sIncludes g "Service" = true →
        relativePath w g ∈ (res.files.lookup "services").getD []) ∧
      (sIncludes g "Exception" = true →
        relativePath w g ∈ (res.files.lookup "exceptions").getD []) := by
  have hres := queryDomainStructure_ok_inv w d res hok
  subst hres
  refine ⟨rfl, fun g hg => ⟨fun hs => ?_, fun hs => ?_⟩⟩
  · show relativePath w g ∈
      ((w.glob (w.base ++ "/app/" ++ d ++ "/**/*.php") ""
        ["**/vendor/**", "**/node_modules/**"] false).filter fun f =>
          sIncludes f "Service").map (relativePath w)
    exact List.mem_map_of_mem _ (List.mem_filter.mpr ⟨hg, hs⟩)
  · show relativePath w g ∈
      ((w.glob (w.base ++ "/app/" ++ d ++ "/**/*.php") ""
        ["**/vendor/**", "**/node_modules/**"] false).filter fun f =>
          sIncludes f "Exception").map (relativePath w)
    exact List.mem_map_of_mem _ (List.mem_filter.mpr ⟨hg, hs⟩)

def serviceTestBuckets : StructureResult :=
  { domain := "Core"
    path := "/base/app/Core"
    total_files := 1
    files :=
      [("controllers", []), ("repositories", []), ("repository_interfaces", []),
       ("transformers", []), ("requests", []), ("models", []), ("entities", []),
       ("services", ["app/Core/Services/FooServiceExceptionTest.php"]),
       ("exceptions", ["app/Core/Services/FooServiceExceptionTest.php"])] }

theorem classification_nonexclusive_amended_witness :
    serviceTestBuckets.files.lookup "tests" = none ∧
    ("app/Core/Services/FooServiceExceptionTest.php" ∈
        (serviceTestBuckets.files.lookup "services").getD [] ∧
      "app/Core/Services/FooServiceExceptionTest.php" ∈
        (serviceTestBuckets.files.lookup "exceptions").getD []) :=
  have h := classification_nonexclusive_amended serviceTestWorld "Core"
    serviceTestBuckets (by decide)
  have hg := (h.2 "/base/app/Core/Services/FooServiceExceptionTest.php" (by decide))
  ⟨h.1, hg.1 (by decide), hg.2 (by decide)⟩

/-- A domain directory with one file matching two category rules. -/
def multiBucketWorld : World :=
  { emptyWorld with
    existsSync := fun _ => true
    glob := fun p _ _ _ =>
      if p = "/base/app/Core/**/*.php" then
        ["/base/app/Core/Support/FooServiceController.php"]
      else [] }

/-- A domain directory with one file matching no category rule. -/
def noBucketWorld : World :=
  { emptyWorld with
    existsSync := fun _ => true
    glob := fun p _ _ _ =>
      if p = "/base/app/Core/**/*.php" then
        ["/base/app/Core/Support/Util.php"]
      else [] }

/-- C10: `total_files` is the glob-match count, independent of the
category buckets: a file matching several substring rules is counted
once although it appears in several buckets (one file, bucket-length sum
2), and a file matching no rule is still counted although it appears in
no bucket (one file, bucket-length sum 0). -/
theorem total_files_count :
    (∀ (w : World) (d : String) (res : StructureResult),
      queryDomainStructure w (some d) = Except.ok res →
        res.total_files = (w.glob (w.base ++ "/app/" ++ d ++ "/**/*.php") ""
          ["**/vendor/**", "**/node_modules/**"] false).length) ∧
    (queryDomainStructure multiBucketWorld (some "Core")).map
        (fun r => (r.total_files, (r.files.map fun b => b.2.length).sum)) =
      Except.ok (1, 2) ∧
    (queryDomainStructure noBucketWorld (some "Core")).map
        (fun r => (r.total_files, (r.files.map fun b => b.2.length).sum)) =
      Except.ok (1, 0) := by
  refine ⟨fun w d res hok => ?_, by decide, by decide⟩
  have hres := queryDomainStructure_ok_inv w d res hok
  subst hres
  rfl

def multiBucketRes : StructureResult :=
  { domain := "Core"
    path := "/base/app/Core"
    total_files := 1
    files :=
      [("controllers", ["app/Core/Support/FooServiceController.php"]),
       ("repositories", []), ("repository_interfaces", []),
       ("transformers", []), ("requests", []), ("models", []), ("entities", []),
       ("services", ["app/Core/Support/FooServiceController.php"]),
       ("exceptions", [])] }

theorem total_files_count_witness :
    multiBucketRes.total_files =
      (multiBucketWorld.glob
        (multiBucketWorld.base ++ "/app/" ++ "Core" ++ "/**/*.php") ""
        ["**/vendor/**", "**/node_modules/**"] false).length :=
  total_files_count.1 multiBucketWorld "Core" multiBucketRes (by decide)

/-! ## Coverage-math claim -/

lemma halfUp_div_eq_floor (a b : Nat) (hb : b ≠ 0) :
    (2 * a + b) / (2 * b) = Nat.floor ((a : ℚ) / b + 1 / 2) := by
  have hbq : (b : ℚ) ≠ 0 := Nat.cast_ne_zero.mpr hb
  have key : (a : ℚ) / b + 1 / 2 = ((2 * a + b : ℕ) : ℚ) / ((2 * b : ℕ) : ℚ) := by
    push_cast
    field_simp
    ring
  rw [key, Nat.floor_div_eq_div]

lemma fl64Pair_den_pos (a b : Nat) : 0 < (fl64Pair a b).2 := by
  unfold fl64Pair
  split
  · norm_num
  · dsimp only
    split
    · exact pow_pos (by norm_num) _
    · norm_num

/-- The exact nearest-integer rounding of `100 * K / N` of the claim
(halves rounded up), as a second definition following the words of the claim,
to compare with the binary64 computation of the program computation. -/
def specRound (k n : Nat) : Nat := (2 * (100 * k) + n) / (2 * n)

lemma specRound_eq_floor (k n : Nat) (h : n ≠ 0) :
    specRound k n = Nat.floor ((100 * (k : ℚ)) / n + 1 / 2) := by
  rw [specRound, halfUp_div_eq_floor (100 * k) n h]
  norm_num

/-- Two candidate files, one of which has a unit test. -/
def coverageWorld : World :=
  { emptyWorld with
    glob := fun p _ _ _ =>
      if p = "/base/app/Core/**/*.php" then
        ["/base/app/Core/Foo.php", "/base/app/Core/Bar.php"]
      else if p = "tests/Unit/**/*Foo*Test.php" then
        ["tests/Unit/Core/FooTest.php"]
      else [] }

/-- Forty candidate files of which exactly the twenty-three `A*` files
have unit tests. -/
def cover40Files : List String :=
  ["/base/app/Core/A1.php", "/base/app/Core/A2.php", "/base/app/Core/A3.php", "/base/app/Core/A4.php",
   "/base/app/Core/A5.php", "/base/app/Core/A6.php", "/base/app/Core/A7.php", "/base/app/Core/A8.php",
   "/base/app/Core/A9.php", "/base/app/Core/A10.php", "/base/app/Core/A11.php", "/base/app/Core/A12.php",
   "/base/app/Core/A13.php", "/base/app/Core/A14.php", "/base/app/Core/A15.php", "/base/app/Core/A16.php",
   "/base/app/Core/A17.php", "/base/app/Core/A18.php", "/base/app/Core/A19.php", "/base/app/Core/A20.php",
   "/base/app/Core/A21.php", "/base/app/Core/A22.php", "/base/app/Core/A23.php", "/base/app/Core/B1.php",
   "/base/app/Core/B2.php", "/base/app/Core/B3.php", "/base/app/Core/B4.php", "/base/app/Core/B5.php",
   "/base/app/Core/B6.php", "/base/app/Core/B7.php", "/base/app/Core/B8.php", "/base/app/Core/B9.php",
   "/base/app/Core/B10.php", "/base/app/Core/B11.php", "/base/app/Core/B12.php", "/base/app/Core/B13.php",
   "/base/app/Core/B14.php", "/base/app/Core/B15.php", "/base/app/Core/B16.php", "/base/app/Core/B17.php"]

def cover40World : World :=
  { emptyWorld with
    glob := fun p _ _ _ =>
      if p = "/base/app/Core/**/*.php" then cover40Files
      else if jsStartsWith p "tests/Unit/**/*A" then ["tests/Unit/Core/T.php"]
      else [] }

/-- C6 fails on the code for `N > 0`: the program computes
`(testedCount / files.length) * 100` in binary64 before `Math.round`, so
at 23 tested of 40 candidates the double product is
57.49999999999999… and the report says `coverage_percentage = 57`,
while the claimed exact rounding `round(100*23/40)` is 58.  The claim
is therefore false at this concrete input. -/
theorem coverage_math_counterexample :
    (findUntestedFiles cover40World (some "Core") none).map
        (fun r => (r.summary.total_files, r.summary.tested_files,
          r.summary.coverage_percentage)) = Except.ok (40, 23, 57) ∧
    specRound 23 40 = 58 ∧
    Nat.floor ((100 * ((23 : ℕ) : ℚ)) / ((40 : ℕ) : ℚ) + 1 / 2) = 58 := by
  refine ⟨by decide, by decide, ?_⟩
  exact (specRound_eq_floor 23 40 (by norm_num)).symm.trans (by decide)

/-- C6 (amended): the reported coverage percentage of
`find_untested_files` is 0 when the candidate count is zero
(`Math.round(NaN) || 0` — never not-a-number and never an error);
when the count is positive it is the exact half-up rounding of the
binary64 evaluation of `(tested / total) * 100` (the double
`coverageDouble`), which agrees with the exact rounding of `100*K/N`
away from representation boundaries — in particular over 2 candidate
files with 1 tested the summary reports `tested_files = 1`, one untested
file and `coverage_percentage = 50` — but not at boundary inputs such as
23 of 40 (see `coverage_math_counterexample`). -/
theorem coverage_math_amended :
    (∀ (w : World) (d : String) (ft : Option String) (res : UntestedResult),
      findUntestedFiles w (some d) ft = Except.ok res →
        (res.summary.total_files = 0 → res.summary.coverage_percentage = 0) ∧
        (res.summary.total_files ≠ 0 →
          res.summary.coverage_percentage =
            Nat.floor
              (((coverageDouble res.summary.tested_files
                  res.summary.total_files).1 : ℚ) /
                ((coverageDouble res.summary.tested_files
                  res.summary.total_files).2 : ℚ) + 1 / 2))) ∧
    (findUntestedFiles coverageWorld (some "Core") none).map
        (fun r => (r.summary.tested_files, r.summary.untested_files,
          r.summary.coverage_percentage)) = Except.ok (1, 1, 50) := by
  constructor
  · intro w d ft res hok
    simp only [findUntestedFiles] at hok
    rw [Except.ok.injEq] at hok
    subst hok
    constructor
    · intro h0
      dsimp only at h0 ⊢
      rw [h0]
      simp [jsCoverage]
    · intro h0
      dsimp only at h0 ⊢
      simp only [jsCoverage, if_neg h0]
      exact halfUp_div_eq_floor _ _ (Nat.pos_iff_ne_zero.mp (fl64Pair_den_pos _ _))
  · rfl

def coverageRes : UntestedResult :=
  { domain := "Core"
    file_type_filter := "all"
    untested_files :=
      [{ file := "app/Core/Bar.php", file_type := "unknown", domain := "Core",
         suggested_test_location := "tests/Unit/Core/BarTest.php",
         complexity_score := 0 }]
    summary := { total_files := 2, tested_files := 1, untested_files := 1,
                 coverage_percentage := 50 } }

theorem coverage_math_amended_witness :
    coverageRes.summary.coverage_percentage =
      Nat.floor
        (((coverageDouble coverageRes.summary.tested_files
            coverageRes.summary.total_files).1 : ℚ) /
          ((coverageDouble coverageRes.summary.tested_files
            coverageRes.summary.total_files).2 : ℚ) + 1 / 2) :=
  (coverage_math_amended.1 coverageWorld "Core" none coverageRes (by rfl)).2
    (by decide)

/-! ## Route-lookup claim -/

/-- C7: `find_route_by_name` with a name present in the route table
returns that route's method, uri and middleware unchanged together with
the domain extracted from the action string by matching the four domain
tokens in namespace position; the example action yields "Employer"; a
name absent from the table fails with the not-found error rather than an
empty success. -/
theorem route_lookup_by_name (w : World) (tbl : List Route) (rn : String) :
    (∀ r ms, tbl.find? (fun x => x.name == some rn) = some r →
        r.middleware = some ms →
        findRouteByName w ⟨some tbl, w.now⟩ (some rn) =
          (Except.ok { route_name := r.name, method := r.method, uri := r.uri,
                       controller := r.action, middleware := ms,
                       domain := extractDomain r.action },
            ⟨some tbl, w.now⟩)) ∧
    (tbl.find? (fun x => x.name == some rn) = none →
      findRouteByName w ⟨some tbl, w.now⟩ (some rn) =
        (Except.error ("Route \x27" ++ rn ++ "\x27 not found"),
          ⟨some tbl, w.now⟩)) ∧
    extractDomain "App\\Employer\\Controllers\\OrderController@index" =
      some "Employer" := by
  have hget : getRoutes ⟨some tbl, w.now⟩ w.now w.routeListing =
      (Except.ok tbl, ⟨some tbl, w.now⟩, 0) :=
    getRoutes_hit _ _ _ tbl rfl (by simp [ROUTE_CACHE_TTL])
  refine ⟨fun r ms hfind hm => ?_, fun hfind => ?_, by decide⟩
  · have hfind2 : tbl.find? (fun x =>
        match (some rn : Option String) with
        | some n => x.name == some n
        | none => false) = some r := hfind
    simp only [findRouteByName, hget, hfind2, hm]
    rfl
  · have hfind2 : tbl.find? (fun x =>
        match (some rn : Option String) with
        | some n => x.name == some n
        | none => false) = none := hfind
    simp only [findRouteByName, hget, hfind2]
    rfl

theorem route_lookup_by_name_witness :
    findRouteByName emptyWorld ⟨some [sampleRoute], 0⟩
        (some "fleet.orders.index") =
      (Except.ok { route_name := some "fleet.orders.index", method := "GET",
                   uri := "/async/fleet/orders",
                   controller := "App\\Employer\\Controllers\\OrderController@index",
                   middleware := ["auth"], domain := some "Employer" },
        ⟨some [sampleRoute], 0⟩) := by
  have h := (route_lookup_by_name emptyWorld [sampleRoute] "fleet.orders.index").1
    sampleRoute ["auth"] (by decide) rfl
  exact h.trans (by decide)

/-! ## Component-usage claim -/

/-- The usage entry the scan loop produces for one scanned file: an
entry exists exactly when the import pattern matches and the tag count
is positive. -/
def usageEntry (w : World) (cname : String) (contents : String → String)
    (vf : String) : Option Usage :=
  if importMatches cname (contents vf) then
    (if countTags cname (contents vf) > 0 then
      some { file := relativePath w vf
             file_type := if sIncludes vf "/pages/" then "page" else "component"
             domain := extractDomain vf
             usage_count := countTags cname (contents vf) }
    else none)
  else none

lemma scanUsages_eq_filterMap (w : World) (cname : String)
    (contents : String → String)
    (hread : ∀ p, w.readFile p = Except.ok (contents p)) (l : List String) :
    scanUsages w cname l = Except.ok (l.filterMap (usageEntry w cname contents)) := by
  induction l with
  | nil => rfl
  | cons vf rest ih =>
    simp only [scanUsages, hread vf, List.filterMap_cons, usageEntry]
    by_cases him : importMatches cname (contents vf)
    · simp only [him, if_true]
      by_cases hcnt : countTags cname (contents vf) > 0
      · simp [hcnt, ih]
      · simp [hcnt, ih]
    · simp [him, ih]

lemma foldl_add_usage (l : List Usage) (n : Nat) :
    l.foldl (fun s u => s + u.usage_count) n = n + (l.map Usage.usage_count).sum := by
  induction l generalizing n with
  | nil => simp
  | cons u rest ih => simp [ih]; omega

lemma findComponentUsage_ok (w : World) (cname : String)
    (contents : String → String)
    (hread : ∀ p, w.readFile p = Except.ok (contents p))
    (cf : String) (tail : List String)
    (hcf : w.glob ("**/" ++ cname ++ ".vue") (w.base ++ "/app") [] true =
      cf :: tail) :
    findComponentUsage w (some cname) none =
      Except.ok
        { component_name := cname
          component_definition :=
            { file := relativePath w cf, domain := extractDomain cf }
          usages := (w.glob "app/**/UI/resources/js/**/*.vue" w.base [] true).filterMap
            (usageEntry w cname contents)
          usage_summary :=
            { total_usages := ((w.glob "app/**/UI/resources/js/**/*.vue" w.base []
                  true).filterMap (usageEntry w cname contents)).foldl
                (fun s u => s + u.usage_count) 0
              files_using := ((w.glob "app/**/UI/resources/js/**/*.vue" w.base []
                true).filterMap (usageEntry w cname contents)).length
              pages_using := (((w.glob "app/**/UI/resources/js/**/*.vue" w.base []
                true).filterMap (usageEntry w cname contents)).filter fun u =>
                  u.file_type == "page").length
              components_using := (((w.glob "app/**/UI/resources/js/**/*.vue" w.base []
                true).filterMap (usageEntry w cname contents)).filter fun u =>
                  u.file_type == "component").length
              domains_using := dedupFirst
                (((w.glob "app/**/UI/resources/js/**/*.vue" w.base []
                  true).filterMap (usageEntry w cname contents)).filterMap
                    Usage.domain) } } := by
  simp only [findComponentUsage, jsShow, Option.getD, truthyOpt]
  rw [hcf, scanUsages_eq_filterMap w cname contents hread]

def pageA : String := "/base/app/Core/UI/resources/js/pages/Orders.vue"

def compB : String := "/base/app/Core/UI/resources/js/components/Toolbar.vue"

/-- File A imports the component and renders its tag twice; file B
imports it but never renders it. -/
def usageContents : String → String := fun p =>
  if p = pageA then
    "import Button from \x27./Button.vue\x27\n<template><Button /><Button /></template>"
  else if p = compB then
    "import Button from \x27./Button.vue\x27\n<template><div /></template>"
  else ""

def usageWorld : World :=
  { emptyWorld with
    readFile := fun p => Except.ok (usageContents p)
    glob := fun p _ _ _ =>
      if p = "**/Button.vue" then
        ["/base/app/Core/UI/resources/js/components/Button.vue"]
      else if p = "app/**/UI/resources/js/**/*.vue" then [pageA, compB]
      else [] }

/-- C8: in `find_component_usage` a scanned file contributes its
template-tag occurrence count to the usages list (hence to `files_using`
and `total_usages`) exactly when its content matches the import pattern
and the tag count is positive: a file whose content matches the tag
pattern but not the import pattern contributes nothing.  In the concrete
world below, file A imports the component and renders its tag twice and
file B imports it without rendering it: `total_usages = 2`,
`files_using = 1`. -/
theorem component_usage_counting :
    (∀ (cname : String) (w : World) (contents : String → String),
      (∀ p, w.readFile p = Except.ok (contents p)) →
      ∀ res, findComponentUsage w (some cname) none = Except.ok res →
        res.usages = (w.glob "app/**/UI/resources/js/**/*.vue" w.base []
          true).filterMap (usageEntry w cname contents) ∧
        res.usage_summary.total_usages = (res.usages.map Usage.usage_count).sum ∧
        res.usage_summary.files_using = res.usages.length) ∧
    (findComponentUsage usageWorld (some "Button") none).map
        (fun r => (r.usage_summary.total_usages, r.usage_summary.files_using)) =
      Except.ok (2, 1) := by
  constructor
  · intro cname w contents hread res hok
    cases hcf : w.glob ("**/" ++ cname ++ ".vue") (w.base ++ "/app") [] true with
    | nil =>
      have herr : findComponentUsage w (some cname) none =
          Except.error ("Component \x27" ++ cname ++ "\x27 not found") := by
        simp only [findComponentUsage, jsShow, Option.getD, truthyOpt]
        rw [hcf]
      rw [herr] at hok
      exact absurd hok (by simp)
    | cons cf tail =>
      rw [findComponentUsage_ok w cname contents hread cf tail hcf] at hok
      rw [Except.ok.injEq] at hok
      subst hok
      refine ⟨rfl, ?_, rfl⟩
      exact (foldl_add_usage _ 0).trans (Nat.zero_add _)
  · decide

def usageRes8 : ComponentUsageResult :=
  { component_name := "Button"
    component_definition :=
      { file := "app/Core/UI/resources/js/components/Button.vue", domain := none }
    usages :=
      [{ file := "app/Core/UI/resources/js/pages/Orders.vue", file_type := "page",
         domain := none, usage_count := 2 }]
    usage_summary := { total_usages := 2, files_using := 1, pages_using := 1,
                       components_using := 0, domains_using := [] } }

theorem component_usage_counting_witness :
    usageRes8.usages = (usageWorld.glob "app/**/UI/resources/js/**/*.vue"
        usageWorld.base [] true).filterMap
      (usageEntry usageWorld "Button" usageContents) ∧
    usageRes8.usage_summary.total_usages =
      (usageRes8.usages.map Usage.usage_count).sum ∧
    usageRes8.usage_summary.files_using = usageRes8.usages.length :=
  component_usage_counting.1 "Button" usageWorld usageContents (fun _ => rfl)
    usageRes8 (by decide)

/-! ## Schema-fallback claim -/

/-- C9: if the primary schema query of `query_database_schema` fails,
the operation falls back to the migration files matching the table name;
when at least one exists (and, per `hfs`, files reported by the glob
collaborator are readable), it returns the first migration's raw text as
a successful, non-error response; an error is raised only when the
primary method failed and no matching migration file was found. -/
theorem schema_query_fallback (w : World) (t : String)
    (hfs : ∀ p ∈ w.glob ("**/*_create_" ++ t ++ "_table.php")
        (w.base ++ "/database/migrations") [] true,
      ∃ c, w.readFile p = Except.ok c) :
    (∀ e m rest, w.describe t = Except.error e →
      w.glob ("**/*_create_" ++ t ++ "_table.php")
          (w.base ++ "/database/migrations") [] true = m :: rest →
      ∃ c, w.readFile m = Except.ok c ∧
        queryDatabaseSchema w (some t) = Except.ok (SchemaResult.migration
          ("Could not query database directly. Found migration file:\n\n" ++ c))) ∧
    (∀ msg, queryDatabaseSchema w (some t) = Except.error msg →
      (∃ e, w.describe t = Except.error e) ∧
      w.glob ("**/*_create_" ++ t ++ "_table.php")
        (w.base ++ "/database/migrations") [] true = []) := by
  constructor
  · intro e m rest hdesc hglob
    obtain ⟨c, hc⟩ := hfs m (by rw [hglob]; exact List.mem_cons_self m rest)
    refine ⟨c, hc, ?_⟩
    simp only [queryDatabaseSchema, jsShow, Option.getD, hdesc, hglob, hc]
  · intro msg hmsg
    simp only [queryDatabaseSchema, jsShow, Option.getD] at hmsg
    split at hmsg
    · simp at hmsg
    · rename_i e heq
      split at hmsg
      · rename_i hglob
        exact ⟨⟨e, heq⟩, hglob⟩
      · rename_i m tail hglob
        obtain ⟨c, hc⟩ := hfs m (by rw [hglob]; exact List.mem_cons_self m tail)
        simp [hc] at hmsg

def migPath : String :=
  "/base/database/migrations/2021_01_01_000000_create_users_table.php"

def migContent : String :=
  "Schema::create(\x27users\x27, function (Blueprint $table) \x7b $table->id(); \x7d);"

def schemaWorld : World :=
  { emptyWorld with
    describe := fun _ => Except.error "SQLSTATE[HY000] connection refused"
    glob := fun p _ _ _ =>
      if p = "**/*_create_users_table.php" then [migPath] else []
    readFile := fun p =>
      if p = migPath then Except.ok migContent else Except.error "ENOENT" }

theorem schema_query_fallback_witness :
    ∃ c, schemaWorld.readFile migPath = Except.ok c ∧
      queryDatabaseSchema schemaWorld (some "users") = Except.ok
        (SchemaResult.migration
          ("Could not query database directly. Found migration file:\n\n" ++ c)) :=
  (schema_query_fallback schemaWorld "users" (by
      intro p hp
      rw [show schemaWorld.glob ("**/*_create_" ++ "users" ++ "_table.php")
          (schemaWorld.base ++ "/database/migrations") [] true = [migPath]
        from rfl] at hp
      rw [List.mem_singleton.mp hp]
      exact ⟨migContent, rfl⟩)).1
    "SQLSTATE[HY000] connection refused" migPath [] rfl rfl
